import Mathlib

/-!
Verification of the rosserial embedded client node handle
(src/rosserial_client/src/ros_lib/ros/node_handle.cpp).

The node handle is shallowly embedded: its member state is a Lean structure,
the hardware port is an explicit oracle (a call-indexed clock plus a byte
queue), and every observable side effect (receive-buffer writes, frame
dispatches, outgoing publishes) is recorded in an event trace.  Constants and
small helpers that live in headers absent from the sources (node_handle.h,
rosserial_ids.h, the generated message codecs, ros/time.h) are modelled from
the specification and marked as such.
-/

namespace Rosserial

/-- Modulus of the C `unsigned long` type (32 bits on the AVR targets);
all clock values and clock subtractions are taken modulo this. -/
def UMOD : Nat := 4294967296

/-- C unsigned subtraction `a - b` on `unsigned long` values: modular
subtraction, as used for all clock comparisons. -/
def usub (a b : Nat) : Nat := (a % UMOD + (UMOD - b % UMOD)) % UMOD

/-- Modelled from the spec: the configuration constants are declared in
node_handle.h, which is absent from the sources; §6.5 names the tunables. -/
structure Config where
  kInputSize : Nat
  kMaxBytesPerSpin : Nat
  kSyncPeriod : Nat
  kConnectionTimeout : Nat
  kMaxSubscribers : Nat
  kMaxPublishers : Nat
  paramTimeoutDefault : Nat
deriving Repr

/-- Modelled from the spec: §6.5 gives INPUT_CAPACITY = 512,
SYNC_PERIOD_MS = 5000, CONNECTION_TIMEOUT_MS = 15000; the remaining
tunables have no spec default and are fixed arbitrarily for examples. -/
def defaultConfig : Config :=
  { kInputSize := 512
    kMaxBytesPerSpin := 64
    kSyncPeriod := 5000
    kConnectionTimeout := 15000
    kMaxSubscribers := 5
    kMaxPublishers := 5
    paramTimeoutDefault := 1000 }

/-- Modelled from the spec: reserved topic identifiers (§6.4); the defining
headers rosserial_ids.h and rosserial_msgs/TopicInfo.h are absent. -/
def TOPIC_NEGOTIATION : Nat := 0

/-- Modelled from the spec: publisher-catalogue channel (§6.4). -/
def TOPIC_PUBLISHERS : Nat := 0

/-- Modelled from the spec: subscriber-catalogue channel (§6.4). -/
def TOPIC_SUBSCRIBERS : Nat := 1

/-- Modelled from the spec: parameter request/response topic (§6.4). -/
def ID_PARAMETER_REQUEST : Nat := 6

/-- Modelled from the spec: log topic (§6.4). -/
def ID_LOG : Nat := 7

/-- Modelled from the spec: time-sync topic (§6.4). -/
def ID_TIME : Nat := 10

/-- The receive state machine states (the `state_` member). -/
inductive RxState where
  | FIRST_FF
  | SECOND_FF
  | TOPIC_LOW
  | TOPIC_HIGH
  | SIZE_LOW
  | SIZE_HIGH
  | MESSAGE
  | CHECKSUM
deriving DecidableEq, Repr

/-- A middleware timestamp (std_msgs::Time data: sec, nsec). -/
structure TimeMsg where
  sec : Nat
  nsec : Nat
deriving DecidableEq, Repr

/-- The decoded parameter response (rosserial_msgs::RequestParam response).
Field names follow the members used by node_handle.cpp.  Float values are
modelled by their bit patterns (`Nat`); the code only copies them. -/
structure ParamResp where
  ints : List Int
  ints_length : Nat
  floats : List Nat
  floats_length : Nat
  strings : List String
  strings_length : Nat
deriving DecidableEq, Repr

/-- The all-empty parameter response (fresh `req_param_resp`). -/
def emptyParamResp : ParamResp := ⟨[], 0, [], 0, [], 0⟩

/-- A registered message receiver (MsgReceiver*): its assigned id, the two
catalogue strings, and the delivery callback, which takes the receive buffer
and the byte count and reports success. -/
structure Receiver where
  id : Nat
  topicName : String
  messageType : String
  receive : List Nat → Nat → Bool

/-- A registered publisher (Publisher*): its assigned id and the two
catalogue strings. -/
structure Publisher where
  id : Nat
  topicName : String
  messageType : String
deriving DecidableEq, Repr

/-- An outgoing message handed to node_output_.publish. -/
inductive OutMsg where
  | timeMsg (t : TimeMsg)
  | topicInfo (id : Nat) (topicName : String) (messageType : String)
  | logMsg (level : Nat) (text : String)
  | reqParam (name : String)
deriving DecidableEq, Repr

/-- Observable effects of the node handle, in program order:
a store into `message_in`, a validated frame reaching the dispatcher,
or an outgoing publish. -/
inductive Event where
  | write (idx : Nat) (b : Nat)
  | dispatch (topic : Nat) (payload : List Nat)
  | publish (topic : Nat) (msg : OutMsg)
deriving DecidableEq, Repr

/-- Recognizer for dispatch events. -/
def Event.isDispatch : Event → Bool
  | Event.dispatch _ _ => true
  | _ => false

/-- Recognizer for write events. -/
def Event.isWrite : Event → Bool
  | Event.write _ _ => true
  | _ => false

/-- Recognizer for publish events. -/
def Event.isPublish : Event → Bool
  | Event.publish _ _ => true
  | _ => false

/-- The NodeHandle member state.  `receivers` has length kMaxSubscribers and
`publishers` length kMaxPublishers (the fixed C arrays); `message_in` has
length kInputSize. -/
structure NH where
  connected_ : Bool
  param_received_ : Bool
  time_sync_start_ : Nat
  time_sync_end_ : Nat
  state_ : RxState
  remaining_data_bytes_ : Nat
  topic_ : Nat
  data_index_ : Nat
  checksum_ : Nat
  invalid_size_error_count_ : Nat
  checksum_error_count_ : Nat
  state_error_count_ : Nat
  malformed_message_error_count_ : Nat
  total_receivers_ : Nat
  receivers : List (Option Receiver)
  publishers : List (Option Publisher)
  message_in : List Nat
  sync_time_ : TimeMsg
  req_param_resp : ParamResp

/-- The constructor NodeHandle::NodeHandle.  The slot arrays and
`state_error_count_` are not in the constructor's initializer list; their
zero/null initial values are modelled from the spec (§3: four non-negative
counters; empty contiguous registries), consistent with the static-storage
zero initialization of the example sketches. -/
def initNH (cfg : Config) : NH :=
  { connected_ := false
    param_received_ := false
    time_sync_start_ := 0
    time_sync_end_ := 0
    state_ := RxState.FIRST_FF
    remaining_data_bytes_ := 0
    topic_ := 0
    data_index_ := 0
    checksum_ := 0
    invalid_size_error_count_ := 0
    checksum_error_count_ := 0
    state_error_count_ := 0
    malformed_message_error_count_ := 0
    total_receivers_ := 0
    receivers := List.replicate cfg.kMaxSubscribers none
    publishers := List.replicate cfg.kMaxPublishers none
    message_in := List.replicate cfg.kInputSize 0
    sync_time_ := ⟨0, 0⟩
    req_param_resp := emptyParamResp }

/-- NodeHandle::reset. -/
def reset (s : NH) : NH :=
  { s with state_ := RxState.FIRST_FF
           remaining_data_bytes_ := 0
           topic_ := 0
           data_index_ := 0
           checksum_ := 0 }

/-- The hardware port: a call-indexed millisecond clock oracle and the queue
of bytes the port will deliver (read() returns the sentinel once the queue is
empty). -/
structure Hardware where
  timeF : Nat → Nat
  timeCalls : Nat
  input : List Nat

/-- One call of hardware_->time(). -/
def timeCall (hw : Hardware) : Nat × Hardware :=
  (hw.timeF hw.timeCalls % UMOD, { hw with timeCalls := hw.timeCalls + 1 })

/-- The external message codecs used by the dispatcher: std_msgs::Time
deserialization and rosserial_msgs::RequestParam response deserialization
(`none` models a negative return).  Modelled from the spec (§6.2): the
generated codec sources are absent; on failure the parameter-response buffer
is unchanged (§4.3). -/
structure Env where
  timeDeser : List Nat → Option TimeMsg
  paramDeser : List Nat → Option ParamResp

/-- Modelled from the spec: Duration::fromMillis and Time::operator+= live in
ros/time.h, absent from the sources; §4.6 gives the law
nsec += ms * 1000000; sec += nsec / 1000000000; nsec %= 1000000000. -/
def addMillis (t : TimeMsg) (ms : Nat) : TimeMsg :=
  let ns := t.nsec + ms * 1000000
  ⟨t.sec + ns / 1000000000, ns % 1000000000⟩

/-- NodeHandle::requestTimeSync: do nothing if a sync is in flight, else
record the request time and publish an empty time message. -/
def requestTimeSync (s : NH) (hw : Hardware) : NH × Hardware × List Event :=
  if s.time_sync_start_ > 0 then (s, hw, [])
  else
    let (t, hw) := timeCall hw
    ({ s with time_sync_start_ := t }, hw,
     [Event.publish ID_TIME (OutMsg.timeMsg ⟨0, 0⟩)])

/-- NodeHandle::completeTimeSync: stamp `time_sync_end_`, compute the
half-round-trip offset, decode the host timestamp (returning early on
failure), advance it by the offset, clear the in-flight mark, and log.
The 40-byte snprintf truncation of the debug text is not modelled. -/
def completeTimeSync (env : Env) (s : NH) (hw : Hardware) (data : List Nat) :
    NH × Hardware × List Event :=
  let (t, hw) := timeCall hw
  let s := { s with time_sync_end_ := t }
  let offset := usub s.time_sync_end_ s.time_sync_start_ / 2
  match env.timeDeser data with
  | none => (s, hw, [])
  | some tm =>
    let st := addMillis tm offset
    ({ s with sync_time_ := st, time_sync_start_ := 0 }, hw,
     [Event.publish ID_LOG
        (OutMsg.logMsg 0 ("Time: " ++ toString st.sec ++ " " ++ toString st.nsec))])

/-- One catalogue loop of NodeHandle::negotiateTopics: walk the slot array in
order (the array length is the kMax bound of the C loop), stop at the first
empty slot, emit one record per occupied slot. -/
def catalogue (f : α → Event) : List (Option α) → List Event
  | [] => []
  | none :: _ => []
  | some x :: rest => f x :: catalogue f rest

/-- NodeHandle::negotiateTopics: publisher records on TOPIC_PUBLISHERS, then
receiver records on TOPIC_SUBSCRIBERS. -/
def negotiateTopics (s : NH) : List Event :=
  catalogue (fun p => Event.publish TOPIC_PUBLISHERS
      (OutMsg.topicInfo p.id p.topicName p.messageType)) s.publishers
  ++ catalogue (fun r => Event.publish TOPIC_SUBSCRIBERS
      (OutMsg.topicInfo r.id r.topicName r.messageType)) s.receivers

/-- The dispatcher: the body of the valid-checksum branch of STATE_CHECKSUM
in NodeHandle::spinOnce (lines 191-209). -/
def dispatchTopic (env : Env) (cfg : Config) (s : NH) (hw : Hardware) :
    NH × Hardware × List Event :=
  if s.topic_ = TOPIC_NEGOTIATION then
    let r := requestTimeSync s hw
    (r.1, r.2.1, r.2.2 ++ negotiateTopics r.1)
  else if s.topic_ = ID_TIME then
    let r := completeTimeSync env s hw s.message_in
    ({ r.1 with connected_ := true }, r.2.1, r.2.2)
  else if s.topic_ = ID_PARAMETER_REQUEST then
    match env.paramDeser s.message_in with
    | some r => ({ s with req_param_resp := r, param_received_ := true }, hw, [])
    | none => (s, hw, [])
  else if 100 ≤ s.topic_ ∧ s.topic_ - 100 < cfg.kMaxSubscribers then
    match s.receivers.getD (s.topic_ - 100) none with
    | some r =>
      if r.receive s.message_in s.data_index_ then (s, hw, [])
      else ({ s with malformed_message_error_count_ :=
                       s.malformed_message_error_count_ + 1 }, hw, [])
    | none =>
      ({ s with checksum_error_count_ := s.checksum_error_count_ + 1 }, hw, [])
  else
    ({ s with checksum_error_count_ := s.checksum_error_count_ + 1 }, hw, [])

/-- One iteration body of the spinOnce read loop: fold the byte into the
running checksum, then run the state switch (lines 138-216). -/
def processByte (env : Env) (cfg : Config) (s : NH) (hw : Hardware) (b : Nat) :
    NH × Hardware × List Event :=
  let s1 := { s with checksum_ := s.checksum_ + b }
  match s.state_ with
  | RxState.FIRST_FF =>
    if b = 255 then ({ s1 with state_ := RxState.SECOND_FF }, hw, [])
    else (reset { s1 with state_error_count_ := s1.state_error_count_ + 1 }, hw, [])
  | RxState.SECOND_FF =>
    if b = 255 then ({ s1 with state_ := RxState.TOPIC_LOW }, hw, [])
    else (reset { s1 with state_error_count_ := s1.state_error_count_ + 1 }, hw, [])
  | RxState.TOPIC_LOW =>
    ({ s1 with checksum_ := b, topic_ := b, state_ := RxState.TOPIC_HIGH }, hw, [])
  | RxState.TOPIC_HIGH =>
    ({ s1 with topic_ := s1.topic_ + b * 256, state_ := RxState.SIZE_LOW }, hw, [])
  | RxState.SIZE_LOW =>
    ({ s1 with remaining_data_bytes_ := b, state_ := RxState.SIZE_HIGH }, hw, [])
  | RxState.SIZE_HIGH =>
    let r := s1.remaining_data_bytes_ + b * 256
    if r = 0 then
      ({ s1 with remaining_data_bytes_ := r, state_ := RxState.CHECKSUM }, hw, [])
    else if r ≤ cfg.kInputSize then
      ({ s1 with remaining_data_bytes_ := r, state_ := RxState.MESSAGE }, hw, [])
    else
      ({ reset s1 with invalid_size_error_count_ :=
                         s1.invalid_size_error_count_ + 1 }, hw, [])
  | RxState.MESSAGE =>
    let s2 := { s1 with message_in := s1.message_in.set s1.data_index_ b
                        data_index_ := s1.data_index_ + 1
                        remaining_data_bytes_ := s1.remaining_data_bytes_ - 1 }
    if s2.remaining_data_bytes_ = 0 then
      ({ s2 with state_ := RxState.CHECKSUM }, hw, [Event.write s1.data_index_ b])
    else (s2, hw, [Event.write s1.data_index_ b])
  | RxState.CHECKSUM =>
    if s1.checksum_ % 256 = 255 then
      let r := dispatchTopic env cfg s1 hw
      (reset r.1, r.2.1,
       Event.dispatch s1.topic_ (s1.message_in.take s1.data_index_) :: r.2.2)
    else (reset s1, hw, [])

/-- Feed a byte list into the receive state machine one byte at a time
(the pure state-machine view, not bounded by kMaxBytesPerSpin). -/
def runBytes (env : Env) (cfg : Config) : NH → Hardware → List Nat → NH × Hardware × List Event
  | s, hw, [] => (s, hw, [])
  | s, hw, b :: rest =>
    let r := processByte env cfg s hw b
    let r2 := runBytes env cfg r.1 r.2.1 rest
    (r2.1, r2.2.1, r.2.2 ++ r2.2.2)

/-- The spinOnce read loop (lines 132-217): up to `fuel` iterations, each
taking one byte from the port queue, stopping when the port is empty.
Returns the final `byte_count`. -/
def spinLoop (env : Env) (cfg : Config) : Nat → NH → Hardware → Nat × NH × Hardware × List Event
  | 0, s, hw => (0, s, hw, [])
  | Nat.succ fuel, s, hw =>
    match hw.input with
    | [] => (0, s, hw, [])
    | b :: rest =>
      let r := processByte env cfg s { hw with input := rest } b
      let r2 := spinLoop env cfg fuel r.1 r.2.1
      (r2.1 + 1, r2.2.1, r2.2.2.1, r.2.2 ++ r2.2.2.2)

/-- The housekeeping at the top of NodeHandle::spinOnce (lines 118-130):
inside `if (connected_)`, the connection-timeout check and the periodic-sync
check are two independent ifs, in that order. -/
def spinHousekeeping (cfg : Config) (current : Nat) (s : NH) (hw : Hardware) :
    NH × Hardware × List Event :=
  if s.connected_ then
    let s1 :=
      if usub current s.time_sync_end_ > cfg.kConnectionTimeout then
        reset { s with connected_ := false, time_sync_start_ := 0 }
      else s
    if usub current s1.time_sync_end_ > cfg.kSyncPeriod then
      requestTimeSync s1 hw
    else (s1, hw, ([] : List Event))
  else (s, hw, ([] : List Event))

/-- NodeHandle::spinOnce: sample the clock once, run the housekeeping, then
pump at most kMaxBytesPerSpin bytes.  Returns the number of bytes consumed
(`byte_count`). -/
def spinOnce (env : Env) (cfg : Config) (s : NH) (hw : Hardware) :
    Nat × NH × Hardware × List Event :=
  let r0 := spinHousekeeping cfg (timeCall hw).1 s (timeCall hw).2
  let r := spinLoop env cfg cfg.kMaxBytesPerSpin r0.1 r0.2.1
  (r.1, r.2.1, r.2.2.1, r0.2.2 ++ r.2.2.2)

/-- NodeHandle::registerReceiver: refuse when full, else store the receiver
in the next slot with id 100 + slot. -/
def registerReceiver (cfg : Config) (s : NH) (topicName messageType : String)
    (rcv : List Nat → Nat → Bool) : Bool × NH :=
  if s.total_receivers_ ≥ cfg.kMaxSubscribers then (false, s)
  else
    let r : Receiver := ⟨100 + s.total_receivers_, topicName, messageType, rcv⟩
    (true, { s with receivers := s.receivers.set s.total_receivers_ (some r)
                    total_receivers_ := s.total_receivers_ + 1 })

/-- Index of the first empty publisher slot, if any. -/
def firstFreeSlot : List (Option Publisher) → Option Nat
  | [] => none
  | none :: _ => some 0
  | some _ :: rest => (firstFreeSlot rest).map (fun n => n + 1)

/-- NodeHandle::advertise: place the publisher in the first empty slot with
id slot + 100 + kMaxSubscribers; false when every slot is occupied. -/
def advertise (cfg : Config) (s : NH) (topicName messageType : String) : Bool × NH :=
  match firstFreeSlot s.publishers with
  | some i =>
    let p : Publisher := ⟨i + 100 + cfg.kMaxSubscribers, topicName, messageType⟩
    (true, { s with publishers := s.publishers.set i (some p) })
  | none => (false, s)

/-- NodeHandle::log: publish a log record on ID_LOG; the handle state is
untouched. -/
def log (s : NH) (level : Nat) (msg : String) : NH × List Event :=
  (s, [Event.publish ID_LOG (OutMsg.logMsg level msg)])

/-- The requestParam wait loop: while not param_received_, spin once, then
fail if the elapsed time exceeds the timeout.  `fuel` bounds the modelled
iterations; exhaustion yields the failure outcome. -/
def requestParamLoop (env : Env) (cfg : Config) (timeOut start : Nat) :
    Nat → NH → Hardware → Bool × NH × Hardware × List Event
  | 0, s, hw => (false, s, hw, [])
  | Nat.succ fuel, s, hw =>
    if s.param_received_ then (true, s, hw, [])
    else
      let r := spinOnce env cfg s hw
      let t := (timeCall r.2.2.1).1
      let hw3 := (timeCall r.2.2.1).2
      if usub t start > timeOut then (false, r.2.1, hw3, r.2.2.2)
      else
        let r2 := requestParamLoop env cfg timeOut start fuel r.2.1 hw3
        (r2.1, r2.2.1, r2.2.2.1, r.2.2.2 ++ r2.2.2.2)

/-- NodeHandle::requestParam: clear param_received_, publish the request,
record the start time, then wait. -/
def requestParam (env : Env) (cfg : Config) (name : String) (timeOut fuel : Nat)
    (s : NH) (hw : Hardware) : Bool × NH × Hardware × List Event :=
  let s1 := { s with param_received_ := false }
  let start := (timeCall hw).1
  let r := requestParamLoop env cfg timeOut start fuel s1 (timeCall hw).2
  (r.1, r.2.1, r.2.2.1, Event.publish ID_PARAMETER_REQUEST (OutMsg.reqParam name) :: r.2.2.2)

/-- NodeHandle::getParam (int overload): request, then copy the first `len`
ints into the caller's array only when the request succeeded and `len`
matches the received ints_length.  The returned list is the caller's array
after the call. -/
def getParamInts (env : Env) (cfg : Config) (name : String) (param : List Int)
    (len fuel : Nat) (s : NH) (hw : Hardware) :
    Bool × List Int × NH × Hardware × List Event :=
  let r := requestParam env cfg name cfg.paramTimeoutDefault fuel s hw
  if r.1 ∧ len = r.2.1.req_param_resp.ints_length then
    (true, (List.range len).map (fun i => r.2.1.req_param_resp.ints.getD i 0)
             ++ param.drop len, r.2.1, r.2.2.1, r.2.2.2)
  else (false, param, r.2.1, r.2.2.1, r.2.2.2)

/-- NodeHandle::getParam (float overload); float values are carried as bit
patterns since the code only copies them. -/
def getParamFloats (env : Env) (cfg : Config) (name : String) (param : List Nat)
    (len fuel : Nat) (s : NH) (hw : Hardware) :
    Bool × List Nat × NH × Hardware × List Event :=
  let r := requestParam env cfg name cfg.paramTimeoutDefault fuel s hw
  if r.1 ∧ len = r.2.1.req_param_resp.floats_length then
    (true, (List.range len).map (fun i => r.2.1.req_param_resp.floats.getD i 0)
             ++ param.drop len, r.2.1, r.2.2.1, r.2.2.2)
  else (false, param, r.2.1, r.2.2.1, r.2.2.2)

/-- NodeHandle::getParam (string overload): strcpy by value into the
caller's storage. -/
def getParamStrings (env : Env) (cfg : Config) (name : String) (param : List String)
    (len fuel : Nat) (s : NH) (hw : Hardware) :
    Bool × List String × NH × Hardware × List Event :=
  let r := requestParam env cfg name cfg.paramTimeoutDefault fuel s hw
  if r.1 ∧ len = r.2.1.req_param_resp.strings_length then
    (true, (List.range len).map (fun i => r.2.1.req_param_resp.strings.getD i "")
             ++ param.drop len, r.2.1, r.2.2.1, r.2.2.2)
  else (false, param, r.2.1, r.2.2.1, r.2.2.2)

/-- NodeHandle::connected. -/
def connected (s : NH) : Bool := s.connected_

/-- The wire frame for a topic and payload (§6.3): two sync bytes, topic id
little-endian, payload length little-endian, payload, and the checksum byte
that makes the byte sum over topic, size and payload congruent to 255. -/
def frameBytes (t : Nat) (payload : List Nat) : List Nat :=
  let n := payload.length
  let hdr := t % 256 + t / 256 + n % 256 + n / 256
  [255, 255, t % 256, t / 256, n % 256, n / 256] ++ payload
    ++ [255 - (hdr + payload.sum) % 256]

/-! ### Helper lemmas about the hardware threading -/

theorem timeCall_input (hw : Hardware) : (timeCall hw).2.input = hw.input := rfl

theorem requestTimeSync_input (s : NH) (hw : Hardware) :
    (requestTimeSync s hw).2.1.input = hw.input := by
  unfold requestTimeSync
  split <;> rfl

theorem completeTimeSync_input (env : Env) (s : NH) (hw : Hardware) (data : List Nat) :
    (completeTimeSync env s hw data).2.1.input = hw.input := by
  cases htd : env.timeDeser data <;> simp [completeTimeSync, timeCall, htd]

theorem dispatchTopic_input (env : Env) (cfg : Config) (s : NH) (hw : Hardware) :
    (dispatchTopic env cfg s hw).2.1.input = hw.input := by
  unfold dispatchTopic
  split
  · exact requestTimeSync_input s hw
  split
  · exact completeTimeSync_input env s hw s.message_in
  split
  · split <;> rfl
  split
  · split
    · split <;> rfl
    · rfl
  · rfl

theorem processByte_input (env : Env) (cfg : Config) (s : NH) (hw : Hardware) (b : Nat) :
    (processByte env cfg s hw b).2.1.input = hw.input := by
  unfold processByte
  cases s.state_ <;> dsimp only
  case FIRST_FF => split <;> rfl
  case SECOND_FF => split <;> rfl
  case SIZE_HIGH =>
    split
    · rfl
    split <;> rfl
  case MESSAGE => split <;> rfl
  case CHECKSUM =>
    split
    · exact dispatchTopic_input env cfg _ hw
    · rfl

theorem spinHousekeeping_input (cfg : Config) (current : Nat) (s : NH) (hw : Hardware) :
    (spinHousekeeping cfg current s hw).2.1.input = hw.input := by
  unfold spinHousekeeping
  split
  · split <;> dsimp only <;> split <;>
      first
      | exact requestTimeSync_input _ hw
      | rfl
  · rfl

theorem spinLoop_count (env : Env) (cfg : Config) (fuel : Nat) :
    ∀ (s : NH) (hw : Hardware),
      (spinLoop env cfg fuel s hw).1 = min fuel hw.input.length ∧
      (spinLoop env cfg fuel s hw).2.2.1.input
        = hw.input.drop (min fuel hw.input.length) := by
  induction fuel with
  | zero => intro s hw; simp [spinLoop]
  | succ fuel ih =>
    intro s hw
    unfold spinLoop
    cases hin : hw.input with
    | nil => simp [hin]
    | cons b rest =>
      dsimp only
      obtain ⟨ih1, ih2⟩ := ih (processByte env cfg s { hw with input := rest } b).1
        (processByte env cfg s { hw with input := rest } b).2.1
      rw [processByte_input] at ih1 ih2
      constructor
      · rw [ih1]
        simp [Nat.succ_min_succ]
      · rw [ih2]
        simp [Nat.succ_min_succ]

/-- Claim C7: every call to spinOnce reads at most kMaxBytesPerSpin bytes
from the port, stops as soon as the port runs out of bytes, and returns
exactly the number of bytes it consumed (a value bounded by
kMaxBytesPerSpin): the returned count is the minimum of kMaxBytesPerSpin and
the available bytes, and exactly that many bytes are taken off the port. -/
theorem C7_spinOnce_bounded (env : Env) (cfg : Config) (s : NH) (hw : Hardware) :
    (spinOnce env cfg s hw).1 = min cfg.kMaxBytesPerSpin hw.input.length ∧
    (spinOnce env cfg s hw).1 ≤ cfg.kMaxBytesPerSpin ∧
    (spinOnce env cfg s hw).2.2.1.input
      = hw.input.drop (spinOnce env cfg s hw).1 := by
  have hk : (spinHousekeeping cfg (timeCall hw).1 s (timeCall hw).2).2.1.input
      = hw.input := (spinHousekeeping_input _ _ _ _).trans rfl
  obtain ⟨h1, h2⟩ := spinLoop_count env cfg cfg.kMaxBytesPerSpin
    (spinHousekeeping cfg (timeCall hw).1 s (timeCall hw).2).1
    (spinHousekeeping cfg (timeCall hw).1 s (timeCall hw).2).2.1
  rw [hk] at h1 h2
  unfold spinOnce
  dsimp only
  refine ⟨h1, ?_, ?_⟩
  · rw [h1]; exact Nat.min_le_left _ _
  · rw [h2, h1]

/-! ### Concrete environments and hardware for witnesses -/

/-- An environment whose codecs always fail; used for concrete runs where the
codecs are irrelevant. -/
def env0 : Env := ⟨fun _ => none, fun _ => none⟩

/-- Hardware whose clock is frozen at `t` and whose port holds `bs`. -/
def hwAt (t : Nat) (bs : List Nat) : Hardware := ⟨fun _ => t, 0, bs⟩

/-! ### Claim C4: connection timeout versus periodic sync -/

/-- Claim C4, counterexample: with the default constants, a connected handle
whose last sync finished at local time 0 calls spinOnce at local time 15001
(beyond the connection timeout) with an empty port.  The timeout branch
fires (the handle ends disconnected), and yet a time sync IS initiated in
that same invocation: the invocation publishes the empty time message and
leaves `time_sync_start_` set to the sampled time — the two checks are
independent ifs, not an if/else-if. -/
theorem C4_counterexample :
    ({ initNH defaultConfig with connected_ := true } : NH).connected_ = true ∧
    usub 15001 ({ initNH defaultConfig with connected_ := true } : NH).time_sync_end_
      > defaultConfig.kConnectionTimeout ∧
    (spinOnce env0 defaultConfig { initNH defaultConfig with connected_ := true }
        (hwAt 15001 [])).2.1.connected_ = false ∧
    (spinOnce env0 defaultConfig { initNH defaultConfig with connected_ := true }
        (hwAt 15001 [])).2.2.2
      = [Event.publish ID_TIME (OutMsg.timeMsg ⟨0, 0⟩)] ∧
    (spinOnce env0 defaultConfig { initNH defaultConfig with connected_ := true }
        (hwAt 15001 [])).2.1.time_sync_start_ = 15001 := by
  decide

/-- Claim C4 (amended): when the connection-timeout branch of spinOnce's
housekeeping fires (connected, and elapsed time beyond kConnectionTimeout),
the handle is marked disconnected, the in-flight sync is cleared, and the
receive machine resets — but, because the periodic-sync check is an
independent if (not an else-if) and kSyncPeriod ≤ kConnectionTimeout, a time
sync IS initiated in that same invocation: the just-cleared
`time_sync_start_` is set to the newly sampled time and the empty time
message is published. -/
theorem C4_amended_timeout_also_syncs (cfg : Config) (current : Nat) (s : NH)
    (hw : Hardware)
    (hconn : s.connected_ = true)
    (htimeout : usub current s.time_sync_end_ > cfg.kConnectionTimeout)
    (hperiod : cfg.kSyncPeriod ≤ cfg.kConnectionTimeout) :
    (spinHousekeeping cfg current s hw).1.connected_ = false ∧
    (spinHousekeeping cfg current s hw).1.state_ = RxState.FIRST_FF ∧
    (spinHousekeeping cfg current s hw).1.time_sync_start_ = (timeCall hw).1 ∧
    (spinHousekeeping cfg current s hw).2.2
      = [Event.publish ID_TIME (OutMsg.timeMsg ⟨0, 0⟩)] := by
  have h2 : cfg.kSyncPeriod < usub current s.time_sync_end_ :=
    lt_of_le_of_lt hperiod htimeout
  simp [spinHousekeeping, requestTimeSync, reset, timeCall, hconn, htimeout, h2]

/-- Witness for the amended claim C4 at a concrete input. -/
theorem C4_amended_witness :
    (spinHousekeeping defaultConfig 15001
        { initNH defaultConfig with connected_ := true } (hwAt 15001 [])).1.connected_
      = false ∧
    (spinHousekeeping defaultConfig 15001
        { initNH defaultConfig with connected_ := true } (hwAt 15001 [])).1.state_
      = RxState.FIRST_FF ∧
    (spinHousekeeping defaultConfig 15001
        { initNH defaultConfig with connected_ := true } (hwAt 15001 [])).1.time_sync_start_
      = (timeCall (hwAt 15001 [])).1 ∧
    (spinHousekeeping defaultConfig 15001
        { initNH defaultConfig with connected_ := true } (hwAt 15001 [])).2.2
      = [Event.publish ID_TIME (OutMsg.timeMsg ⟨0, 0⟩)] :=
  C4_amended_timeout_also_syncs defaultConfig 15001
    { initNH defaultConfig with connected_ := true } (hwAt 15001 [])
    rfl (by decide) (by decide)

/-! ### Claim C3: behaviour on checksum failure -/

/-- Claim C3, counterexample: feed the machine a frame for topic 100 with one
payload byte and a corrupted checksum byte (155 instead of the correct 154).
The machine is in CHECKSUM state before the last byte and the folded-in
checksum fails the test, yet the checksum-error counter stays at 0 (the code
only increments it inside the valid-checksum branch, for unrecognized
topics); no dispatch occurs and the machine resets. -/
theorem C3_counterexample :
    (runBytes env0 defaultConfig (initNH defaultConfig) (hwAt 0 [])
        [255, 255, 100, 0, 1, 0, 0]).1.state_ = RxState.CHECKSUM ∧
    ((runBytes env0 defaultConfig (initNH defaultConfig) (hwAt 0 [])
        [255, 255, 100, 0, 1, 0, 0]).1.checksum_ + 155) % 256 ≠ 255 ∧
    (initNH defaultConfig).checksum_error_count_ = 0 ∧
    (runBytes env0 defaultConfig (initNH defaultConfig) (hwAt 0 [])
        [255, 255, 100, 0, 1, 0, 0, 155]).1.checksum_error_count_ = 0 ∧
    (runBytes env0 defaultConfig (initNH defaultConfig) (hwAt 0 [])
        [255, 255, 100, 0, 1, 0, 0, 155]).2.2.filter Event.isDispatch = [] ∧
    (runBytes env0 defaultConfig (initNH defaultConfig) (hwAt 0 [])
        [255, 255, 100, 0, 1, 0, 0, 155]).1.state_ = RxState.FIRST_FF := by
  decide

/-- Claim C3 (amended): when the machine processes the final (checksum) byte
of a frame and the folded-in checksum fails the test, NO error counter is
incremented (in particular the checksum-error counter is unchanged — the
code increments that counter only for valid-checksum frames whose topic is
unrecognized), no dispatch or any other event occurs, and the machine resets
to FIRST_FF. -/
theorem C3_amended_checksum_fail (env : Env) (cfg : Config) (s : NH)
    (hw : Hardware) (b : Nat)
    (hst : s.state_ = RxState.CHECKSUM)
    (hbad : (s.checksum_ + b) % 256 ≠ 255) :
    processByte env cfg s hw b
      = (reset { s with checksum_ := s.checksum_ + b }, hw, []) ∧
    (processByte env cfg s hw b).1.checksum_error_count_
      = s.checksum_error_count_ ∧
    (processByte env cfg s hw b).1.state_error_count_ = s.state_error_count_ ∧
    (processByte env cfg s hw b).1.invalid_size_error_count_
      = s.invalid_size_error_count_ ∧
    (processByte env cfg s hw b).1.malformed_message_error_count_
      = s.malformed_message_error_count_ ∧
    (processByte env cfg s hw b).1.state_ = RxState.FIRST_FF := by
  simp [processByte, hst, hbad, reset]

/-- A concrete machine state sitting in CHECKSUM state after the first seven
bytes of a frame for topic 100 with one zero payload byte. -/
def c3state : NH :=
  { initNH defaultConfig with state_ := RxState.CHECKSUM, topic_ := 100,
                              data_index_ := 1, checksum_ := 101 }

/-- Witness for the amended claim C3 at a concrete input. -/
theorem C3_amended_witness :
    processByte env0 defaultConfig c3state (hwAt 0 []) 155
      = (reset { c3state with checksum_ := c3state.checksum_ + 155 },
         hwAt 0 [], []) ∧
    (processByte env0 defaultConfig c3state (hwAt 0 []) 155).1.checksum_error_count_
      = c3state.checksum_error_count_ ∧
    (processByte env0 defaultConfig c3state (hwAt 0 []) 155).1.state_error_count_
      = c3state.state_error_count_ ∧
    (processByte env0 defaultConfig c3state (hwAt 0 []) 155).1.invalid_size_error_count_
      = c3state.invalid_size_error_count_ ∧
    (processByte env0 defaultConfig c3state (hwAt 0 []) 155).1.malformed_message_error_count_
      = c3state.malformed_message_error_count_ ∧
    (processByte env0 defaultConfig c3state (hwAt 0 []) 155).1.state_
      = RxState.FIRST_FF :=
  C3_amended_checksum_fail env0 defaultConfig c3state (hwAt 0 []) 155
    rfl (by decide)

/-! ### Claims C5 and C10: completing a time sync -/

/-- Claim C5: on a checksum-valid frame on the time-sync topic (id 10) whose
payload decodes as a time message, completing the sync establishes:
time_sync_end_ is the local time sampled at completion, sync_time_ is the
decoded host timestamp advanced by (time_sync_end − time_sync_start)/2
milliseconds under the duration-addition rule, time_sync_start_ is cleared,
and the connection is marked live. -/
theorem C5_time_sync_success (env : Env) (cfg : Config) (s : NH) (hw : Hardware)
    (b : Nat) (tm : TimeMsg)
    (hst : s.state_ = RxState.CHECKSUM)
    (htopic : s.topic_ = ID_TIME)
    (hok : (s.checksum_ + b) % 256 = 255)
    (hdec : env.timeDeser s.message_in = some tm) :
    (processByte env cfg s hw b).1.time_sync_end_ = (timeCall hw).1 ∧
    (processByte env cfg s hw b).1.sync_time_
      = addMillis tm (usub (timeCall hw).1 s.time_sync_start_ / 2) ∧
    (processByte env cfg s hw b).1.time_sync_start_ = 0 ∧
    (processByte env cfg s hw b).1.connected_ = true := by
  simp [processByte, hst, htopic, hok, hdec, dispatchTopic, completeTimeSync,
        reset, timeCall, ID_TIME, TOPIC_NEGOTIATION]

/-- An environment whose time codec always decodes to the timestamp
sec = 1300000000, nsec = 500000000. -/
def envT : Env := ⟨fun _ => some ⟨1300000000, 500000000⟩, fun _ => none⟩

/-- A concrete machine state in CHECKSUM state for a frame on the time-sync
topic, with a sync request in flight since local time 1000. -/
def c5state : NH :=
  { initNH defaultConfig with state_ := RxState.CHECKSUM, topic_ := 10,
                              checksum_ := 255, time_sync_start_ := 1000 }

/-- Witness for claim C5 at a concrete input (local clock at 1600, so the
half-round-trip offset is (1600 − 1000)/2 = 300 ms). -/
theorem C5_witness :
    (processByte envT defaultConfig c5state (hwAt 1600 []) 0).1.time_sync_end_
      = (timeCall (hwAt 1600 [])).1 ∧
    (processByte envT defaultConfig c5state (hwAt 1600 []) 0).1.sync_time_
      = addMillis ⟨1300000000, 500000000⟩
          (usub (timeCall (hwAt 1600 [])).1 c5state.time_sync_start_ / 2) ∧
    (processByte envT defaultConfig c5state (hwAt 1600 []) 0).1.time_sync_start_
      = 0 ∧
    (processByte envT defaultConfig c5state (hwAt 1600 []) 0).1.connected_
      = true :=
  C5_time_sync_success envT defaultConfig c5state (hwAt 1600 []) 0
    ⟨1300000000, 500000000⟩ rfl rfl (by decide) rfl

/-- Claim C10: after the dispatcher handles any checksum-valid frame on the
time-sync topic, the handle reports connected — even when the payload fails
to deserialize as a time message; in that failure case time_sync_end_ is
still set to the sampled local time while sync_time_ is left unchanged and
time_sync_start_ is not cleared. -/
theorem C10_time_frame_connects_on_decode_failure (env : Env) (cfg : Config)
    (s : NH) (hw : Hardware) (b : Nat)
    (hst : s.state_ = RxState.CHECKSUM)
    (htopic : s.topic_ = ID_TIME)
    (hok : (s.checksum_ + b) % 256 = 255)
    (hfail : env.timeDeser s.message_in = none) :
    connected (processByte env cfg s hw b).1 = true ∧
    (processByte env cfg s hw b).1.time_sync_end_ = (timeCall hw).1 ∧
    (processByte env cfg s hw b).1.sync_time_ = s.sync_time_ ∧
    (processByte env cfg s hw b).1.time_sync_start_ = s.time_sync_start_ := by
  simp [processByte, hst, htopic, hok, hfail, dispatchTopic, completeTimeSync,
        reset, timeCall, connected, ID_TIME, TOPIC_NEGOTIATION]

/-- A concrete machine state in CHECKSUM state for a frame on the time-sync
topic with a sync in flight; paired with the always-failing codec. -/
def c10state : NH :=
  { initNH defaultConfig with state_ := RxState.CHECKSUM, topic_ := 10,
                              checksum_ := 255, time_sync_start_ := 1000,
                              sync_time_ := ⟨7, 8⟩ }

/-- Witness for claim C10 at a concrete input. -/
theorem C10_witness :
    connected (processByte env0 defaultConfig c10state (hwAt 1600 []) 0).1 = true ∧
    (processByte env0 defaultConfig c10state (hwAt 1600 []) 0).1.time_sync_end_
      = (timeCall (hwAt 1600 [])).1 ∧
    (processByte env0 defaultConfig c10state (hwAt 1600 []) 0).1.sync_time_
      = c10state.sync_time_ ∧
    (processByte env0 defaultConfig c10state (hwAt 1600 []) 0).1.time_sync_start_
      = c10state.time_sync_start_ :=
  C10_time_frame_connects_on_decode_failure env0 defaultConfig c10state
    (hwAt 1600 []) 0 rfl rfl (by decide) rfl

/-! ### Event-shape lemmas: the dispatcher only publishes -/

theorem catalogue_publishes {α : Type} (f : α → Event)
    (hf : ∀ x, (f x).isPublish = true) :
    ∀ slots : List (Option α), ∀ e ∈ catalogue f slots, e.isPublish = true := by
  intro slots
  induction slots with
  | nil => intro e he; cases he
  | cons o rest ih =>
    cases o with
    | none => intro e he; cases he
    | some x =>
      intro e he
      cases he with
      | head => exact hf x
      | tail _ hmem => exact ih e hmem

theorem requestTimeSync_publishes (s : NH) (hw : Hardware) :
    ∀ e ∈ (requestTimeSync s hw).2.2, e.isPublish = true := by
  unfold requestTimeSync
  split
  · intro e he; cases he
  · intro e he
    cases he with
    | head => rfl
    | tail _ hmem => cases hmem

theorem completeTimeSync_publishes (env : Env) (s : NH) (hw : Hardware)
    (data : List Nat) :
    ∀ e ∈ (completeTimeSync env s hw data).2.2, e.isPublish = true := by
  unfold completeTimeSync
  cases htd : env.timeDeser data <;> simp [htd, Event.isPublish]

theorem dispatchTopic_publishes (env : Env) (cfg : Config) (s : NH) (hw : Hardware) :
    ∀ e ∈ (dispatchTopic env cfg s hw).2.2, e.isPublish = true := by
  unfold dispatchTopic
  split
  · intro e he
    rw [List.mem_append] at he
    cases he with
    | inl h1 => exact requestTimeSync_publishes s hw e h1
    | inr h2 =>
      unfold negotiateTopics at h2
      rw [List.mem_append] at h2
      cases h2 with
      | inl h3 =>
        exact catalogue_publishes
          (fun p : Publisher => Event.publish TOPIC_PUBLISHERS
            (OutMsg.topicInfo p.id p.topicName p.messageType))
          (fun _ => rfl) _ e h3
      | inr h4 =>
        exact catalogue_publishes
          (fun r : Receiver => Event.publish TOPIC_SUBSCRIBERS
            (OutMsg.topicInfo r.id r.topicName r.messageType))
          (fun _ => rfl) _ e h4
  split
  · exact completeTimeSync_publishes env s hw s.message_in
  split
  · split
    · intro e he; cases he
    · intro e he; cases he
  split
  · split
    · split
      · intro e he; cases he
      · intro e he; cases he
    · intro e he; cases he
  · intro e he; cases he

theorem dispatchTopic_no_dispatch (env : Env) (cfg : Config) (s : NH) (hw : Hardware) :
    (dispatchTopic env cfg s hw).2.2.filter Event.isDispatch = [] := by
  rw [List.filter_eq_nil_iff]
  intro e he
  have := dispatchTopic_publishes env cfg s hw e he
  cases e <;> simp_all [Event.isPublish, Event.isDispatch]

/-! ### Claim C8: topic negotiation -/

/-- Claim C8: when the dispatcher handles a checksum-valid frame on
TOPIC_NEGOTIATION (0), the emitted events are: the dispatch itself, then the
time-sync request (the empty time message, present exactly when no sync is
already in flight), then one topic-info record on TOPIC_PUBLISHERS (0) per
occupied publisher slot in slot order, then one topic-info record on
TOPIC_SUBSCRIBERS (1) per occupied subscriber slot in slot order, each
catalogue stopping at its first empty slot. -/
theorem C8_negotiation (env : Env) (cfg : Config) (s : NH) (hw : Hardware) (b : Nat)
    (hst : s.state_ = RxState.CHECKSUM)
    (htopic : s.topic_ = TOPIC_NEGOTIATION)
    (hok : (s.checksum_ + b) % 256 = 255) :
    (processByte env cfg s hw b).2.2
      = Event.dispatch TOPIC_NEGOTIATION (s.message_in.take s.data_index_)
        :: (if s.time_sync_start_ > 0 then []
            else [Event.publish ID_TIME (OutMsg.timeMsg ⟨0, 0⟩)])
        ++ catalogue (fun p => Event.publish TOPIC_PUBLISHERS
             (OutMsg.topicInfo p.id p.topicName p.messageType)) s.publishers
        ++ catalogue (fun r => Event.publish TOPIC_SUBSCRIBERS
             (OutMsg.topicInfo r.id r.topicName r.messageType)) s.receivers := by
  by_cases hfl : s.time_sync_start_ > 0 <;>
    simp [processByte, hst, htopic, hok, hfl, dispatchTopic, requestTimeSync,
          negotiateTopics, timeCall, TOPIC_NEGOTIATION]

/-- A concrete handle with two occupied publisher slots, one occupied
subscriber slot, no sync in flight, sitting in CHECKSUM state on a
negotiation frame. -/
def c8state : NH :=
  { initNH defaultConfig with
      state_ := RxState.CHECKSUM, topic_ := 0, checksum_ := 255,
      publishers := [some ⟨105, "/foo", "std_msgs/Int32"⟩,
                     some ⟨106, "/baz", "std_msgs/Int64"⟩, none, none, none],
      receivers := [some ⟨100, "/bar", "std_msgs/Float32", fun _ _ => true⟩,
                    none, none, none, none] }

/-- Witness for claim C8 at a concrete input. -/
theorem C8_witness :
    (processByte env0 defaultConfig c8state (hwAt 0 []) 0).2.2
      = Event.dispatch TOPIC_NEGOTIATION (c8state.message_in.take c8state.data_index_)
        :: (if c8state.time_sync_start_ > 0 then []
            else [Event.publish ID_TIME (OutMsg.timeMsg ⟨0, 0⟩)])
        ++ catalogue (fun p => Event.publish TOPIC_PUBLISHERS
             (OutMsg.topicInfo p.id p.topicName p.messageType)) c8state.publishers
        ++ catalogue (fun r => Event.publish TOPIC_SUBSCRIBERS
             (OutMsg.topicInfo r.id r.topicName r.messageType)) c8state.receivers :=
  C8_negotiation env0 defaultConfig c8state (hwAt 0 []) 0 rfl rfl (by decide)

/-! ### Claim C6: the four error counters are monotone -/

/-- Pointwise order on the four error counters. -/
def countersLe (s s2 : NH) : Prop :=
  s.invalid_size_error_count_ ≤ s2.invalid_size_error_count_ ∧
  s.checksum_error_count_ ≤ s2.checksum_error_count_ ∧
  s.state_error_count_ ≤ s2.state_error_count_ ∧
  s.malformed_message_error_count_ ≤ s2.malformed_message_error_count_

theorem countersLe_refl (s : NH) : countersLe s s :=
  ⟨le_refl _, le_refl _, le_refl _, le_refl _⟩

theorem countersLe_trans {a b c : NH} (h1 : countersLe a b) (h2 : countersLe b c) :
    countersLe a c :=
  ⟨h1.1.trans h2.1, h1.2.1.trans h2.2.1, h1.2.2.1.trans h2.2.2.1,
   h1.2.2.2.trans h2.2.2.2⟩

theorem requestTimeSync_counters (s : NH) (hw : Hardware) :
    countersLe s (requestTimeSync s hw).1 := by
  unfold requestTimeSync
  split <;> exact countersLe_refl _

theorem completeTimeSync_counters (env : Env) (s : NH) (hw : Hardware)
    (data : List Nat) :
    countersLe s (completeTimeSync env s hw data).1 := by
  unfold completeTimeSync
  cases htd : env.timeDeser data <;> simp [htd] <;> exact countersLe_refl _

theorem dispatchTopic_counters (env : Env) (cfg : Config) (s : NH) (hw : Hardware) :
    countersLe s (dispatchTopic env cfg s hw).1 := by
  unfold dispatchTopic
  split
  · exact requestTimeSync_counters s hw
  split
  · exact completeTimeSync_counters env s hw s.message_in
  split
  · split <;> exact countersLe_refl _
  split
  · split
    · split
      · exact countersLe_refl _
      · exact ⟨le_refl _, le_refl _, le_refl _, Nat.le_succ _⟩
    · exact ⟨le_refl _, Nat.le_succ _, le_refl _, le_refl _⟩
  · exact ⟨le_refl _, Nat.le_succ _, le_refl _, le_refl _⟩

theorem processByte_counters (env : Env) (cfg : Config) (s : NH) (hw : Hardware)
    (b : Nat) :
    countersLe s (processByte env cfg s hw b).1 := by
  unfold processByte
  cases s.state_ <;> dsimp only
  case FIRST_FF =>
    split
    · exact countersLe_refl _
    · exact ⟨le_refl _, le_refl _, Nat.le_succ _, le_refl _⟩
  case SECOND_FF =>
    split
    · exact countersLe_refl _
    · exact ⟨le_refl _, le_refl _, Nat.le_succ _, le_refl _⟩
  case TOPIC_LOW => exact countersLe_refl _
  case TOPIC_HIGH => exact countersLe_refl _
  case SIZE_LOW => exact countersLe_refl _
  case SIZE_HIGH =>
    split
    · exact countersLe_refl _
    split
    · exact countersLe_refl _
    · exact ⟨Nat.le_succ _, le_refl _, le_refl _, le_refl _⟩
  case MESSAGE => split <;> exact countersLe_refl _
  case CHECKSUM =>
    split
    · exact dispatchTopic_counters env cfg
        { s with checksum_ := s.checksum_ + b, state_ := RxState.CHECKSUM } hw
    · exact countersLe_refl _

theorem runBytes_counters (env : Env) (cfg : Config) :
    ∀ (bs : List Nat) (s : NH) (hw : Hardware),
      countersLe s (runBytes env cfg s hw bs).1 := by
  intro bs
  induction bs with
  | nil => intro s hw; exact countersLe_refl _
  | cons b rest ih =>
    intro s hw
    exact countersLe_trans (processByte_counters env cfg s hw b) (ih _ _)

theorem spinLoop_counters (env : Env) (cfg : Config) :
    ∀ (fuel : Nat) (s : NH) (hw : Hardware),
      countersLe s (spinLoop env cfg fuel s hw).2.1 := by
  intro fuel
  induction fuel with
  | zero => intro s hw; exact countersLe_refl _
  | succ fuel ih =>
    intro s hw
    unfold spinLoop
    cases hin : hw.input with
    | nil => exact countersLe_refl _
    | cons b rest =>
      exact countersLe_trans (processByte_counters env cfg s _ b) (ih _ _)

theorem spinHousekeeping_counters (cfg : Config) (current : Nat) (s : NH)
    (hw : Hardware) :
    countersLe s (spinHousekeeping cfg current s hw).1 := by
  unfold spinHousekeeping
  split
  · split <;> dsimp only <;> split
    · exact requestTimeSync_counters
        (reset { s with connected_ := false, time_sync_start_ := 0 }) hw
    · exact countersLe_refl s
    · exact requestTimeSync_counters s hw
    · exact countersLe_refl s
  · exact countersLe_refl s

theorem spinOnce_counters (env : Env) (cfg : Config) (s : NH) (hw : Hardware) :
    countersLe s (spinOnce env cfg s hw).2.1 := by
  exact countersLe_trans
    (spinHousekeeping_counters cfg (timeCall hw).1 s (timeCall hw).2)
    (spinLoop_counters env cfg cfg.kMaxBytesPerSpin _ _)

theorem requestParamLoop_counters (env : Env) (cfg : Config) (timeOut start : Nat) :
    ∀ (fuel : Nat) (s : NH) (hw : Hardware),
      countersLe s (requestParamLoop env cfg timeOut start fuel s hw).2.1 := by
  intro fuel
  induction fuel with
  | zero => intro s hw; exact countersLe_refl _
  | succ fuel ih =>
    intro s hw
    unfold requestParamLoop
    split
    · exact countersLe_refl _
    dsimp only
    split
    · exact spinOnce_counters env cfg s hw
    · exact countersLe_trans (spinOnce_counters env cfg s hw) (ih _ _)

theorem requestParam_counters (env : Env) (cfg : Config) (name : String)
    (timeOut fuel : Nat) (s : NH) (hw : Hardware) :
    countersLe s (requestParam env cfg name timeOut fuel s hw).2.1 := by
  exact requestParamLoop_counters env cfg timeOut _ fuel
    { s with param_received_ := false } _

/-- Claim C6: the four error counters (invalid-size, checksum, framing-state,
malformed-message) are all zero after construction (they are naturals, hence
non-negative) and never decrease across any operation: spinOnce on any byte
stream, any raw byte feed, advertise, registerReceiver, requestParam,
getParam, and logging each leave every counter unchanged or increased. -/
theorem C6_counters_monotone :
    (∀ cfg : Config,
       (initNH cfg).invalid_size_error_count_ = 0 ∧
       (initNH cfg).checksum_error_count_ = 0 ∧
       (initNH cfg).state_error_count_ = 0 ∧
       (initNH cfg).malformed_message_error_count_ = 0) ∧
    (∀ (env : Env) (cfg : Config) (s : NH) (hw : Hardware),
       countersLe s (spinOnce env cfg s hw).2.1) ∧
    (∀ (env : Env) (cfg : Config) (s : NH) (hw : Hardware) (bs : List Nat),
       countersLe s (runBytes env cfg s hw bs).1) ∧
    (∀ (cfg : Config) (s : NH) (n t : String),
       countersLe s (advertise cfg s n t).2) ∧
    (∀ (cfg : Config) (s : NH) (n t : String) (f : List Nat → Nat → Bool),
       countersLe s (registerReceiver cfg s n t f).2) ∧
    (∀ (env : Env) (cfg : Config) (name : String) (timeOut fuel : Nat)
       (s : NH) (hw : Hardware),
       countersLe s (requestParam env cfg name timeOut fuel s hw).2.1) ∧
    (∀ (env : Env) (cfg : Config) (name : String) (param : List Int)
       (len fuel : Nat) (s : NH) (hw : Hardware),
       countersLe s (getParamInts env cfg name param len fuel s hw).2.2.1) ∧
    (∀ (s : NH) (lvl : Nat) (msg : String), countersLe s (log s lvl msg).1) := by
  refine ⟨?_, ?_, ?_, ?_, ?_, ?_, ?_, ?_⟩
  · intro cfg; exact ⟨rfl, rfl, rfl, rfl⟩
  · intro env cfg s hw; exact spinOnce_counters env cfg s hw
  · intro env cfg s hw bs; exact runBytes_counters env cfg bs s hw
  · intro cfg s n t
    unfold advertise
    split <;> exact countersLe_refl _
  · intro cfg s n t f
    unfold registerReceiver
    split
    · exact countersLe_refl _
    · exact countersLe_refl _
  · intro env cfg name timeOut fuel s hw
    exact requestParam_counters env cfg name timeOut fuel s hw
  · intro env cfg name param len fuel s hw
    unfold getParamInts
    dsimp only
    split <;> exact requestParam_counters env cfg name cfg.paramTimeoutDefault fuel s hw
  · intro s lvl msg; exact countersLe_refl _

/-! ### Claim C2: receive-buffer writes stay in bounds -/

/-- Unfolding lemma: one step of `runBytes`. -/
theorem runBytes_cons (env : Env) (cfg : Config) (s : NH) (hw : Hardware)
    (b : Nat) (rest : List Nat) :
    runBytes env cfg s hw (b :: rest)
      = ((runBytes env cfg (processByte env cfg s hw b).1
            (processByte env cfg s hw b).2.1 rest).1,
         (runBytes env cfg (processByte env cfg s hw b).1
            (processByte env cfg s hw b).2.1 rest).2.1,
         (processByte env cfg s hw b).2.2
           ++ (runBytes env cfg (processByte env cfg s hw b).1
                 (processByte env cfg s hw b).2.1 rest).2.2) := rfl

/-- The receive-machine invariant: in MESSAGE state the pending store index
plus the pending byte count stays within the buffer; in the header states no
store is pending. -/
def RxInv (cfg : Config) (s : NH) : Prop :=
  match s.state_ with
  | RxState.MESSAGE =>
    0 < s.remaining_data_bytes_ ∧
    s.data_index_ + s.remaining_data_bytes_ ≤ cfg.kInputSize
  | RxState.CHECKSUM => True
  | _ => s.data_index_ = 0

theorem RxInv_reset (cfg : Config) (x : NH) : RxInv cfg (reset x) := by
  simp [RxInv, reset]

theorem processByte_inv (env : Env) (cfg : Config) (s : NH) (hw : Hardware)
    (b : Nat) (h : RxInv cfg s) :
    RxInv cfg (processByte env cfg s hw b).1 ∧
    (∀ i v, Event.write i v ∈ (processByte env cfg s hw b).2.2 →
       i < cfg.kInputSize) := by
  unfold processByte
  cases hst : s.state_ <;> dsimp only <;>
    simp only [RxInv, hst] at h
  case FIRST_FF =>
    split
    · refine ⟨?_, ?_⟩
      · simp only [RxInv]; exact h
      · intro i v hm; simp at hm
    · refine ⟨RxInv_reset cfg _, ?_⟩
      intro i v hm; simp at hm
  case SECOND_FF =>
    split
    · refine ⟨?_, ?_⟩
      · simp only [RxInv]; exact h
      · intro i v hm; simp at hm
    · refine ⟨RxInv_reset cfg _, ?_⟩
      intro i v hm; simp at hm
  case TOPIC_LOW =>
    refine ⟨?_, ?_⟩
    · simp only [RxInv]; exact h
    · intro i v hm; simp at hm
  case TOPIC_HIGH =>
    refine ⟨?_, ?_⟩
    · simp only [RxInv]; exact h
    · intro i v hm; simp at hm
  case SIZE_LOW =>
    refine ⟨?_, ?_⟩
    · simp only [RxInv]; exact h
    · intro i v hm; simp at hm
  case SIZE_HIGH =>
    split
    · refine ⟨?_, ?_⟩
      · simp only [RxInv]
      · intro i v hm; simp at hm
    split
    · refine ⟨?_, ?_⟩
      · simp only [RxInv]
        refine ⟨?_, ?_⟩
        · omega
        · rw [h]; omega
      · intro i v hm; simp at hm
    · refine ⟨?_, ?_⟩
      · simp [RxInv, reset]
      · intro i v hm; simp at hm
  case MESSAGE =>
    obtain ⟨hpos, hle⟩ := h
    split
    · refine ⟨?_, ?_⟩
      · simp only [RxInv]
      · intro i v hm
        simp at hm
        omega
    · refine ⟨?_, ?_⟩
      · simp only [RxInv]
        refine ⟨?_, ?_⟩ <;> omega
      · intro i v hm
        simp at hm
        omega
  case CHECKSUM =>
    split
    · refine ⟨RxInv_reset cfg _, ?_⟩
      intro i v hm
      rcases List.mem_cons.mp hm with h1 | h2
      · simp at h1
      · have hp := dispatchTopic_publishes env cfg _ hw _ h2
        simp [Event.isPublish] at hp
    · refine ⟨RxInv_reset cfg _, ?_⟩
      intro i v hm; simp at hm

theorem runBytes_inv (env : Env) (cfg : Config) :
    ∀ (bs : List Nat) (s : NH) (hw : Hardware), RxInv cfg s →
      RxInv cfg (runBytes env cfg s hw bs).1 ∧
      (∀ i v, Event.write i v ∈ (runBytes env cfg s hw bs).2.2 →
         i < cfg.kInputSize) := by
  intro bs
  induction bs with
  | nil =>
    intro s hw h
    refine ⟨h, ?_⟩
    intro i v hm
    simp [runBytes] at hm
  | cons b rest ih =>
    intro s hw h
    obtain ⟨h1, h2⟩ := processByte_inv env cfg s hw b h
    obtain ⟨h3, h4⟩ := ih (processByte env cfg s hw b).1
      (processByte env cfg s hw b).2.1 h1
    rw [runBytes_cons]
    refine ⟨h3, ?_⟩
    intro i v hm
    rcases List.mem_append.mp hm with hA | hB
    · exact h2 i v hA
    · exact h4 i v hB

theorem spinLoop_inv (env : Env) (cfg : Config) :
    ∀ (fuel : Nat) (s : NH) (hw : Hardware), RxInv cfg s →
      RxInv cfg (spinLoop env cfg fuel s hw).2.1 ∧
      (∀ i v, Event.write i v ∈ (spinLoop env cfg fuel s hw).2.2.2 →
         i < cfg.kInputSize) := by
  intro fuel
  induction fuel with
  | zero =>
    intro s hw h
    refine ⟨h, ?_⟩
    intro i v hm
    simp [spinLoop] at hm
  | succ fuel ih =>
    intro s hw h
    unfold spinLoop
    cases hin : hw.input with
    | nil =>
      refine ⟨h, ?_⟩
      intro i v hm
      simp at hm
    | cons b rest =>
      dsimp only
      obtain ⟨h1, h2⟩ := processByte_inv env cfg s { hw with input := rest } b h
      obtain ⟨h3, h4⟩ := ih (processByte env cfg s { hw with input := rest } b).1
        (processByte env cfg s { hw with input := rest } b).2.1 h1
      refine ⟨h3, ?_⟩
      intro i v hm
      rcases List.mem_append.mp hm with hA | hB
      · exact h2 i v hA
      · exact h4 i v hB

theorem requestTimeSync_inv (cfg : Config) (s : NH) (hw : Hardware)
    (h : RxInv cfg s) :
    RxInv cfg (requestTimeSync s hw).1 := by
  unfold requestTimeSync
  split
  · exact h
  · exact h

theorem spinHousekeeping_inv (cfg : Config) (current : Nat) (s : NH)
    (hw : Hardware) (h : RxInv cfg s) :
    RxInv cfg (spinHousekeeping cfg current s hw).1 := by
  unfold spinHousekeeping
  split
  · split <;> dsimp only <;> split
    · exact requestTimeSync_inv cfg _ hw (RxInv_reset cfg _)
    · exact RxInv_reset cfg _
    · exact requestTimeSync_inv cfg s hw h
    · exact h
  · exact h

theorem spinHousekeeping_publishes (cfg : Config) (current : Nat) (s : NH)
    (hw : Hardware) :
    ∀ e ∈ (spinHousekeeping cfg current s hw).2.2, e.isPublish = true := by
  unfold spinHousekeeping
  split
  · split <;> dsimp only <;> split
    · exact requestTimeSync_publishes _ hw
    · intro e he; simp at he
    · exact requestTimeSync_publishes s hw
    · intro e he; simp at he
  · intro e he; simp at he

/-- Claim C2: for every byte stream fed to the receive machine — raw, or via
spinOnce — every write into the receive buffer lands at an index below
kInputSize, provided the machine satisfies its invariant (which holds after
construction and is preserved by every step); and a frame whose declared
size exceeds kInputSize is discarded at the size-high byte: that step emits
no event, increments the invalid-size counter by one, resets the machine to
FIRST_FF, and leaves the buffer untouched. -/
theorem C2_receive_buffer_safety (cfg : Config) :
    RxInv cfg (initNH cfg) ∧
    (∀ (env : Env) (s : NH) (hw : Hardware) (bs : List Nat), RxInv cfg s →
       (∀ i v, Event.write i v ∈ (runBytes env cfg s hw bs).2.2 →
          i < cfg.kInputSize) ∧
       RxInv cfg (runBytes env cfg s hw bs).1) ∧
    (∀ (env : Env) (s : NH) (hw : Hardware), RxInv cfg s →
       (∀ i v, Event.write i v ∈ (spinOnce env cfg s hw).2.2.2 →
          i < cfg.kInputSize) ∧
       RxInv cfg (spinOnce env cfg s hw).2.1) ∧
    (∀ (env : Env) (s : NH) (hw : Hardware) (b : Nat),
       s.state_ = RxState.SIZE_HIGH →
       cfg.kInputSize < s.remaining_data_bytes_ + b * 256 →
       (processByte env cfg s hw b).2.2 = [] ∧
       (processByte env cfg s hw b).1.invalid_size_error_count_
         = s.invalid_size_error_count_ + 1 ∧
       (processByte env cfg s hw b).1.state_ = RxState.FIRST_FF ∧
       (processByte env cfg s hw b).1.message_in = s.message_in) := by
  refine ⟨?_, ?_, ?_, ?_⟩
  · simp [RxInv, initNH]
  · intro env s hw bs h
    obtain ⟨h1, h2⟩ := runBytes_inv env cfg bs s hw h
    exact ⟨h2, h1⟩
  · intro env s hw h
    have hk := spinHousekeeping_inv cfg (timeCall hw).1 s (timeCall hw).2 h
    obtain ⟨h1, h2⟩ := spinLoop_inv env cfg cfg.kMaxBytesPerSpin
      (spinHousekeeping cfg (timeCall hw).1 s (timeCall hw).2).1
      (spinHousekeeping cfg (timeCall hw).1 s (timeCall hw).2).2.1 hk
    refine ⟨?_, h1⟩
    intro i v hm
    unfold spinOnce at hm
    dsimp only at hm
    rcases List.mem_append.mp hm with hA | hB
    · have hp := spinHousekeeping_publishes cfg (timeCall hw).1 s
        (timeCall hw).2 _ hA
      simp [Event.isPublish] at hp
    · exact h2 i v hB
  · intro env s hw b hst hbig
    have hr0 : ¬(s.remaining_data_bytes_ + b * 256 = 0) := by omega
    have hrk : ¬(s.remaining_data_bytes_ + b * 256 ≤ cfg.kInputSize) := by omega
    simp [processByte, hst, hr0, hrk, reset]

/-- A concrete machine state at the size-high byte of a frame whose declared
size will come out as 1 + 255·256 = 65281, far beyond the default capacity. -/
def c2state : NH :=
  { initNH defaultConfig with state_ := RxState.SIZE_HIGH,
                              remaining_data_bytes_ := 1 }

/-- Witness for claim C2: a concrete adversarial stream (a valid two-byte
frame for topic 0 followed by garbage) from the freshly constructed handle,
and a concrete oversize frame header discarded at the size-high byte. -/
theorem C2_witness :
    ((∀ i v, Event.write i v ∈ (runBytes env0 defaultConfig
         (initNH defaultConfig) (hwAt 0 [])
         [255, 255, 0, 0, 2, 0, 7, 9, 239, 17, 255]).2.2 →
        i < defaultConfig.kInputSize) ∧
     RxInv defaultConfig (runBytes env0 defaultConfig
       (initNH defaultConfig) (hwAt 0 [])
       [255, 255, 0, 0, 2, 0, 7, 9, 239, 17, 255]).1) ∧
    ((processByte env0 defaultConfig c2state (hwAt 0 []) 255).2.2 = [] ∧
     (processByte env0 defaultConfig c2state
        (hwAt 0 []) 255).1.invalid_size_error_count_
       = c2state.invalid_size_error_count_ + 1 ∧
     (processByte env0 defaultConfig c2state (hwAt 0 []) 255).1.state_
       = RxState.FIRST_FF ∧
     (processByte env0 defaultConfig c2state (hwAt 0 []) 255).1.message_in
       = c2state.message_in) :=
  ⟨(C2_receive_buffer_safety defaultConfig).2.1 env0 (initNH defaultConfig)
     (hwAt 0 []) [255, 255, 0, 0, 2, 0, 7, 9, 239, 17, 255]
     (by simp [RxInv, initNH]),
   (C2_receive_buffer_safety defaultConfig).2.2.2 env0 c2state
     (hwAt 0 []) 255 rfl (by decide)⟩

/-! ### Claim C1: round-trip of a well-formed frame -/

theorem runBytes_append (env : Env) (cfg : Config) :
    ∀ (as bs : List Nat) (s : NH) (hw : Hardware),
      runBytes env cfg s hw (as ++ bs)
        = ((runBytes env cfg (runBytes env cfg s hw as).1
              (runBytes env cfg s hw as).2.1 bs).1,
           (runBytes env cfg (runBytes env cfg s hw as).1
              (runBytes env cfg s hw as).2.1 bs).2.1,
           (runBytes env cfg s hw as).2.2
             ++ (runBytes env cfg (runBytes env cfg s hw as).1
                  (runBytes env cfg s hw as).2.1 bs).2.2) := by
  intro as
  induction as with
  | nil => intro bs s hw; rfl
  | cons a as ih =>
    intro bs s hw
    rw [List.cons_append, runBytes_cons, runBytes_cons, ih]
    simp [runBytes_cons, List.append_assoc]

theorem take_set_succ :
    ∀ (mi : List Nat) (d b : Nat), d < mi.length →
      (mi.set d b).take (d + 1) = mi.take d ++ [b] := by
  intro mi
  induction mi with
  | nil => intro d b h; simp at h
  | cons x xs ih =>
    intro d b h
    cases d with
    | zero => simp
    | succ d =>
      have h2 : d < xs.length := by simpa using h
      simp only [List.set_cons_succ, List.take_succ_cons, List.cons_append,
        ih d b h2]

/-- Feeding the six header bytes of a frame from FIRST_FF: the machine ends
in CHECKSUM (empty payload) or MESSAGE, with the topic, the declared size
and the running checksum captured, with no event and no hardware access. -/
theorem feedHeader (env : Env) (cfg : Config) (s : NH) (hw : Hardware)
    (t n : Nat)
    (hst : s.state_ = RxState.FIRST_FF) (hdi : s.data_index_ = 0)
    (hn : n ≤ cfg.kInputSize) :
    runBytes env cfg s hw [255, 255, t % 256, t / 256, n % 256, n / 256]
      = ({ s with state_ := if n = 0 then RxState.CHECKSUM else RxState.MESSAGE,
                  topic_ := t % 256 + t / 256 * 256,
                  remaining_data_bytes_ := n,
                  checksum_ := t % 256 + t / 256 + n % 256 + n / 256 },
         hw, []) := by
  have hrec : n % 256 + n / 256 * 256 = n := by omega
  by_cases hn0 : n = 0
  · subst hn0
    simp [runBytes_cons, runBytes, processByte, hst, hdi]
  · have hrgt : ¬(n % 256 + n / 256 * 256 = 0) := by omega
    have hrle : n % 256 + n / 256 * 256 ≤ cfg.kInputSize := by omega
    simp [runBytes_cons, runBytes, processByte, hst, hdi, hrgt, hrec, hrle, hn,
          hn0]

/-- Unfolding lemma: a one-byte run is one step. -/
theorem runBytes_single (env : Env) (cfg : Config) (s : NH) (hw : Hardware)
    (b : Nat) :
    runBytes env cfg s hw [b] = processByte env cfg s hw b := by
  rw [runBytes_cons]
  simp [runBytes]

/-- Feeding the payload bytes while in MESSAGE state with exactly that many
bytes expected: the machine ends in CHECKSUM, the bytes are appended into
the buffer in order, the checksum accumulates their sum, and no dispatch
occurs. -/
theorem feedPayload (env : Env) (cfg : Config) :
    ∀ (rest : List Nat) (s : NH) (hw : Hardware),
      s.state_ = RxState.MESSAGE →
      s.remaining_data_bytes_ = rest.length →
      rest ≠ [] →
      s.data_index_ + rest.length ≤ cfg.kInputSize →
      s.message_in.length = cfg.kInputSize →
      (runBytes env cfg s hw rest).2.1 = hw ∧
      (runBytes env cfg s hw rest).2.2.filter Event.isDispatch = [] ∧
      (runBytes env cfg s hw rest).1
        = { s with state_ := RxState.CHECKSUM,
                   data_index_ := s.data_index_ + rest.length,
                   remaining_data_bytes_ := 0,
                   checksum_ := s.checksum_ + rest.sum,
                   message_in := (runBytes env cfg s hw rest).1.message_in } ∧
      (runBytes env cfg s hw rest).1.message_in.length = cfg.kInputSize ∧
      (runBytes env cfg s hw rest).1.message_in.take
          (s.data_index_ + rest.length)
        = s.message_in.take s.data_index_ ++ rest := by
  intro rest
  induction rest with
  | nil => intro s hw _ _ hne; exact absurd rfl hne
  | cons b rest ih =>
    intro s hw hst hrem _ hcap hlen
    have hlc : (b :: rest).length = rest.length + 1 := by simp
    have hdlt : s.data_index_ < s.message_in.length := by omega
    by_cases hre : rest = []
    · subst hre
      have hrem1 : s.remaining_data_bytes_ = 1 := by simpa using hrem
      have hstep : processByte env cfg s hw b
          = ({ s with message_in := s.message_in.set s.data_index_ b,
                      data_index_ := s.data_index_ + 1,
                      remaining_data_bytes_ := 0,
                      checksum_ := s.checksum_ + b,
                      state_ := RxState.CHECKSUM },
             hw, [Event.write s.data_index_ b]) := by
        simp [processByte, hst, hrem1]
      rw [runBytes_single, hstep]
      refine ⟨rfl, by simp [Event.isDispatch], ?_, ?_, ?_⟩
      · simp
      · simp [hlen]
      · simp only [List.length_cons, List.length_nil, Nat.zero_add]
        exact take_set_succ s.message_in s.data_index_ b hdlt
    · have hrne : rest ≠ [] := hre
      have hrem2 : s.remaining_data_bytes_ = rest.length + 1 := by
        rw [hrem, hlc]
      have hplen : 0 < rest.length := List.length_pos.mpr hre
      have hstep : processByte env cfg s hw b
          = ({ s with message_in := s.message_in.set s.data_index_ b,
                      data_index_ := s.data_index_ + 1,
                      remaining_data_bytes_ := s.remaining_data_bytes_ - 1,
                      checksum_ := s.checksum_ + b },
             hw, [Event.write s.data_index_ b]) := by
        have hnz : ¬(s.remaining_data_bytes_ - 1 = 0) := by omega
        simp [processByte, hst, hnz]
      obtain ⟨ih1, ih2, ih3, ih4, ih5⟩ := ih
        { s with message_in := s.message_in.set s.data_index_ b,
                 data_index_ := s.data_index_ + 1,
                 remaining_data_bytes_ := s.remaining_data_bytes_ - 1,
                 checksum_ := s.checksum_ + b }
        hw hst (by simp only []; omega) hrne
        (by simp only []; omega)
        (by simp [hlen])
      rw [runBytes_cons, hstep]
      dsimp only
      refine ⟨ih1, ?_, ?_, ih4, ?_⟩
      · simp [Event.isDispatch, ih2]
      · rw [ih3]
        have e1 : s.data_index_ + 1 + rest.length
            = s.data_index_ + (b :: rest).length := by rw [hlc]; omega
        have e2 : s.checksum_ + b + rest.sum
            = s.checksum_ + (b :: rest).sum := by rw [List.sum_cons]; omega
        rw [e1, e2]
      · rw [show s.data_index_ + (b :: rest).length
            = (s.data_index_ + 1) + rest.length by rw [hlc]; omega]
        rw [ih5]
        rw [take_set_succ s.message_in s.data_index_ b hdlt]
        simp

theorem checksum_closes (X : Nat) : (X + (255 - X % 256)) % 256 = 255 := by
  omega

/-- The CHECKSUM step on a valid checksum byte: exactly one dispatch event,
carrying the accumulated topic and the first data_index_ buffer bytes (the
dispatcher itself only publishes). -/
theorem processByte_checksum_ok (env : Env) (cfg : Config) (s : NH)
    (hw : Hardware) (b : Nat)
    (hst : s.state_ = RxState.CHECKSUM)
    (hok : (s.checksum_ + b) % 256 = 255) :
    (processByte env cfg s hw b).2.2.filter Event.isDispatch
      = [Event.dispatch s.topic_ (s.message_in.take s.data_index_)] := by
  simp [processByte, hst, hok, List.filter_cons, Event.isDispatch,
        dispatchTopic_no_dispatch]

/-- Claim C1: for every topic id (16 bits) and payload of length at most
kInputSize, feeding the well-formed frame byte sequence (two sync bytes,
topic little-endian, size little-endian, payload, closing checksum byte) one
byte at a time into the receive machine starting from FIRST_FF (no store
pending, full-size buffer) produces exactly one dispatch, carrying exactly
that topic id and exactly those payload bytes. -/
theorem C1_roundtrip_dispatch (env : Env) (cfg : Config) (s : NH)
    (hw : Hardware) (t : Nat) (payload : List Nat)
    (hst : s.state_ = RxState.FIRST_FF)
    (hdi : s.data_index_ = 0)
    (hmi : s.message_in.length = cfg.kInputSize)
    (ht : t < 65536)
    (hlen : payload.length ≤ cfg.kInputSize) :
    (runBytes env cfg s hw (frameBytes t payload)).2.2.filter Event.isDispatch
      = [Event.dispatch t payload] := by
  have htrec : t % 256 + t / 256 * 256 = t := by omega
  have hsplit : frameBytes t payload
      = [255, 255, t % 256, t / 256, payload.length % 256,
         payload.length / 256]
        ++ (payload
          ++ [255 - (t % 256 + t / 256 + payload.length % 256
                + payload.length / 256 + payload.sum) % 256]) := by
    simp [frameBytes]
  have hfh := feedHeader env cfg s hw t payload.length hst hdi hlen
  rw [hsplit, runBytes_append, hfh]
  dsimp only
  by_cases hnil : payload = []
  · subst hnil
    simp only [List.length_nil, List.sum_nil, List.nil_append, Nat.add_zero,
      Nat.zero_mod, Nat.zero_div, List.nil_append]
    rw [runBytes_single]
    rw [processByte_checksum_ok env cfg _ hw _ (by simp) (by
      dsimp only
      omega)]
    simp [hdi, htrec]
  · have hlen0 : ¬(payload.length = 0) := by
      simpa [List.length_eq_zero] using hnil
    rw [runBytes_append]
    obtain ⟨hp1, hp2, hp3, hp4, hp5⟩ := feedPayload env cfg payload
      { s with state_ := if payload.length = 0 then RxState.CHECKSUM
                         else RxState.MESSAGE,
               topic_ := t % 256 + t / 256 * 256,
               remaining_data_bytes_ := payload.length,
               checksum_ := t % 256 + t / 256 + payload.length % 256
                 + payload.length / 256 }
      hw (by dsimp only; simp [hlen0]) rfl hnil
      (by dsimp only; rw [hdi]; omega)
      (by dsimp only; exact hmi)
    rw [hp1, hp3, runBytes_single]
    simp only [List.filter_append, hp2, List.nil_append]
    rw [processByte_checksum_ok env cfg _ hw _ rfl (by
      dsimp only
      omega)]
    dsimp only
    rw [hdi] at hp5 ⊢
    simp only [Nat.zero_add] at hp5 ⊢
    rw [hp5]
    simp [htrec]

/-- Witness for claim C1: the frame for topic 258 with payload bytes 7, 8,
fed from the freshly constructed handle, dispatches exactly once. -/
theorem C1_witness :
    (runBytes env0 defaultConfig (initNH defaultConfig) (hwAt 0 [])
        (frameBytes 258 [7, 8])).2.2.filter Event.isDispatch
      = [Event.dispatch 258 [7, 8]] :=
  C1_roundtrip_dispatch env0 defaultConfig (initNH defaultConfig) (hwAt 0 [])
    258 [7, 8] rfl rfl (by simp [initNH]) (by decide) (by decide)

/-! ### Claim C9: typed parameter getters copy all-or-nothing -/

/-- Claim C9: for each typed getter (ints, floats, strings) with declared
length len, the caller's array is written if and only if the parameter
request succeeds before timing out AND len equals the length field of the
received response; in that case exactly the first len elements are replaced
by the response elements (the rest of the caller's storage is untouched),
and on any failure the getter returns false and the caller's array is
unchanged. -/
theorem C9_getParam_copy (env : Env) (cfg : Config) (name : String)
    (fuel len : Nat) (s : NH) (hw : Hardware)
    (paramI : List Int) (paramF : List Nat) (paramS : List String) :
    ((getParamInts env cfg name paramI len fuel s hw).1 = true ↔
       (requestParam env cfg name cfg.paramTimeoutDefault fuel s hw).1 = true ∧
       len = (requestParam env cfg name cfg.paramTimeoutDefault fuel s
         hw).2.1.req_param_resp.ints_length) ∧
    ((getParamInts env cfg name paramI len fuel s hw).1 = true →
       (getParamInts env cfg name paramI len fuel s hw).2.1
         = (List.range len).map (fun i =>
             (requestParam env cfg name cfg.paramTimeoutDefault fuel s
               hw).2.1.req_param_resp.ints.getD i 0)
           ++ paramI.drop len) ∧
    ((getParamInts env cfg name paramI len fuel s hw).1 = false →
       (getParamInts env cfg name paramI len fuel s hw).2.1 = paramI) ∧
    ((getParamFloats env cfg name paramF len fuel s hw).1 = true ↔
       (requestParam env cfg name cfg.paramTimeoutDefault fuel s hw).1 = true ∧
       len = (requestParam env cfg name cfg.paramTimeoutDefault fuel s
         hw).2.1.req_param_resp.floats_length) ∧
    ((getParamFloats env cfg name paramF len fuel s hw).1 = true →
       (getParamFloats env cfg name paramF len fuel s hw).2.1
         = (List.range len).map (fun i =>
             (requestParam env cfg name cfg.paramTimeoutDefault fuel s
               hw).2.1.req_param_resp.floats.getD i 0)
           ++ paramF.drop len) ∧
    ((getParamFloats env cfg name paramF len fuel s hw).1 = false →
       (getParamFloats env cfg name paramF len fuel s hw).2.1 = paramF) ∧
    ((getParamStrings env cfg name paramS len fuel s hw).1 = true ↔
       (requestParam env cfg name cfg.paramTimeoutDefault fuel s hw).1 = true ∧
       len = (requestParam env cfg name cfg.paramTimeoutDefault fuel s
         hw).2.1.req_param_resp.strings_length) ∧
    ((getParamStrings env cfg name paramS len fuel s hw).1 = true →
       (getParamStrings env cfg name paramS len fuel s hw).2.1
         = (List.range len).map (fun i =>
             (requestParam env cfg name cfg.paramTimeoutDefault fuel s
               hw).2.1.req_param_resp.strings.getD i "")
           ++ paramS.drop len) ∧
    ((getParamStrings env cfg name paramS len fuel s hw).1 = false →
       (getParamStrings env cfg name paramS len fuel s hw).2.1 = paramS) := by
  unfold getParamInts getParamFloats getParamStrings
  dsimp only
  refine ⟨?_, ?_, ?_, ?_, ?_, ?_, ?_, ?_, ?_⟩ <;>
    split_ifs with h <;> simp [h]

/-- Witness for claim C9 at a concrete input (fuel 0, so the request fails
and every getter leaves the caller's array unchanged). -/
theorem C9_witness :
    ((getParamInts env0 defaultConfig "p" [1, 2] 0 0 (initNH defaultConfig)
        (hwAt 0 [])).1 = true ↔
       (requestParam env0 defaultConfig "p" defaultConfig.paramTimeoutDefault 0
         (initNH defaultConfig) (hwAt 0 [])).1 = true ∧
       0 = (requestParam env0 defaultConfig "p" defaultConfig.paramTimeoutDefault
         0 (initNH defaultConfig) (hwAt 0 [])).2.1.req_param_resp.ints_length) ∧
    ((getParamInts env0 defaultConfig "p" [1, 2] 0 0 (initNH defaultConfig)
        (hwAt 0 [])).1 = true →
       (getParamInts env0 defaultConfig "p" [1, 2] 0 0 (initNH defaultConfig)
         (hwAt 0 [])).2.1
         = (List.range 0).map (fun i =>
             (requestParam env0 defaultConfig "p"
               defaultConfig.paramTimeoutDefault 0 (initNH defaultConfig)
               (hwAt 0 [])).2.1.req_param_resp.ints.getD i 0)
           ++ ([1, 2] : List Int).drop 0) ∧
    ((getParamInts env0 defaultConfig "p" [1, 2] 0 0 (initNH defaultConfig)
        (hwAt 0 [])).1 = false →
       (getParamInts env0 defaultConfig "p" [1, 2] 0 0 (initNH defaultConfig)
         (hwAt 0 [])).2.1 = [1, 2]) ∧
    ((getParamFloats env0 defaultConfig "p" [3] 0 0 (initNH defaultConfig)
        (hwAt 0 [])).1 = true ↔
       (requestParam env0 defaultConfig "p" defaultConfig.paramTimeoutDefault 0
         (initNH defaultConfig) (hwAt 0 [])).1 = true ∧
       0 = (requestParam env0 defaultConfig "p" defaultConfig.paramTimeoutDefault
         0 (initNH defaultConfig) (hwAt 0 [])).2.1.req_param_resp.floats_length) ∧
    ((getParamFloats env0 defaultConfig "p" [3] 0 0 (initNH defaultConfig)
        (hwAt 0 [])).1 = true →
       (getParamFloats env0 defaultConfig "p" [3] 0 0 (initNH defaultConfig)
         (hwAt 0 [])).2.1
         = (List.range 0).map (fun i =>
             (requestParam env0 defaultConfig "p"
               defaultConfig.paramTimeoutDefault 0 (initNH defaultConfig)
               (hwAt 0 [])).2.1.req_param_resp.floats.getD i 0)
           ++ ([3] : List Nat).drop 0) ∧
    ((getParamFloats env0 defaultConfig "p" [3] 0 0 (initNH defaultConfig)
        (hwAt 0 [])).1 = false →
       (getParamFloats env0 defaultConfig "p" [3] 0 0 (initNH defaultConfig)
         (hwAt 0 [])).2.1 = [3]) ∧
    ((getParamStrings env0 defaultConfig "p" ["a"] 0 0 (initNH defaultConfig)
        (hwAt 0 [])).1 = true ↔
       (requestParam env0 defaultConfig "p" defaultConfig.paramTimeoutDefault 0
         (initNH defaultConfig) (hwAt 0 [])).1 = true ∧
       0 = (requestParam env0 defaultConfig "p" defaultConfig.paramTimeoutDefault
         0 (initNH defaultConfig) (hwAt 0 [])).2.1.req_param_resp.strings_length) ∧
    ((getParamStrings env0 defaultConfig "p" ["a"] 0 0 (initNH defaultConfig)
        (hwAt 0 [])).1 = true →
       (getParamStrings env0 defaultConfig "p" ["a"] 0 0 (initNH defaultConfig)
         (hwAt 0 [])).2.1
         = (List.range 0).map (fun i =>
             (requestParam env0 defaultConfig "p"
               defaultConfig.paramTimeoutDefault 0 (initNH defaultConfig)
               (hwAt 0 [])).2.1.req_param_resp.strings.getD i "")
           ++ (["a"] : List String).drop 0) ∧
    ((getParamStrings env0 defaultConfig "p" ["a"] 0 0 (initNH defaultConfig)
        (hwAt 0 [])).1 = false →
       (getParamStrings env0 defaultConfig "p" ["a"] 0 0 (initNH defaultConfig)
         (hwAt 0 [])).2.1 = ["a"]) :=
  C9_getParam_copy env0 defaultConfig "p" 0 0 (initNH defaultConfig)
    (hwAt 0 []) [1, 2] [3] ["a"]

end Rosserial
